import Mathlib

/-!
Shallow embedding of `scripts/pick_place_demo.py` from the `sawyer_utec`
repository.

The Python module drives a Sawyer arm through an open-loop pick-and-place
sequence: `get_ik` wraps the external IK service, `pick_place` executes a
six-waypoint transfer, and `main` runs the demo batch of six cup transfers.

External effects (service waiting and invocation, arm motion, gripper
actuation, sleeps, head display) are recorded in an explicit event trace.
The nondeterminism of the external IK service is an explicit
`ServiceOutcome` argument, one per `get_ik` call.  Python's `KeyError`,
raised by `q_initial['right_j0']`-style indexing when a joint name is
missing from the seed dictionary, is modelled with `Except PyError`.
Real-valued quantities (positions, angles, durations) are modelled as `ℚ`.
-/

/-- 3D position `(x, y, z)` in the base frame. -/
structure Pos where
  x : ℚ
  y : ℚ
  z : ℚ
  deriving DecidableEq

/-- Quaternion orientation `(w, x, y, z)`. -/
structure Quat where
  w : ℚ
  x : ℚ
  y : ℚ
  z : ℚ
  deriving DecidableEq

/-- A pose `((x,y,z), (ew,ex,ey,ez))` as used throughout the script. -/
abbrev Pose := Pos × Quat

/-- A joint configuration: Python dictionary from joint-name strings to
angles, modelled as an association list (all dictionaries built by the
script have distinct keys). -/
abbrev JointConfig := List (String × ℚ)

/-- The seven joint names used for the seed of the IK request
(`pick_place_demo.py`, lines 99-100). -/
def jointNames : List String :=
  ["right_j0", "right_j1", "right_j2", "right_j3", "right_j4", "right_j5",
   "right_j6"]

/-- `class JointResult` (lines 29-31): joint angles plus a validity flag.
The class attributes give the defaults `jangles = {}`, `valid = False`;
failure paths of `get_ik` return such a default object. -/
structure JointResult where
  jangles : JointConfig := []
  valid : Bool := false
  deriving DecidableEq

/-- Uncaught Python exceptions the modelled code can raise. -/
inductive PyError where
  | keyError
  deriving DecidableEq

/-- Behaviour of the external IK service for one `get_ik` call:
`unavailable` models `rospy.wait_for_service` timing out
(`rospy.ROSException`); `commFault` models the service invocation raising
`rospy.ServiceException`; `respond rc names positions` models a response
with `result_type[0] = rc` and `joints[0]` carrying the given parallel
name/position lists. -/
inductive ServiceOutcome where
  | unavailable
  | commFault
  | respond (resultCode : ℤ) (names : List String) (positions : List ℚ)
  deriving DecidableEq

/-- Externally observable events of a run, in program order.  `ikCall i p s`
records entering the `get_ik` call for waypoint `i` with target pose `p`
and seed argument `s`; `ikRet i r` records that call returning `r`. -/
inductive Event where
  | ikCall (i : Nat) (pose : Pose) (seed : JointConfig)
  | waitService (timeout : ℚ)
  | callService
  | ikRet (i : Nat) (r : JointResult)
  | moveArm (i : Nat) (q : JointConfig)
  | gripperSet (opening : ℚ)
  | gripperOpen
  | gripperCalibrate
  | moveNeutral
  | displayImage (file : String)
  | sleep (duration : ℚ)
  deriving DecidableEq

/-- Python dictionary lookup `c[k]`, as an `Option`. -/
def lookupJ (c : JointConfig) (k : String) : Option ℚ :=
  (c.find? (fun p => p.1 == k)).map (fun p => p.2)

/-- Python dictionary update `d[k] = v` (overwrite if present, else append). -/
def dictUpd (d : JointConfig) (k : String) (v : ℚ) : JointConfig :=
  if d.any (fun p => p.1 == k) then
    d.map (fun p => if p.1 == k then (k, v) else p)
  else d ++ [(k, v)]

/-- Python `dict(pairs)`: fold the pairs into a dictionary, later entries
overriding earlier ones. -/
def pyDictOfPairs : List (String × ℚ) → JointConfig :=
  List.foldl (fun d p => dictUpd d p.1 p.2) []

/-- `dict(zip(names, positions))` (line 125-126). -/
def dictZip (names : List String) (positions : List ℚ) : JointConfig :=
  pyDictOfPairs (names.zip positions)

/-- Whether a seed dictionary contains all seven joint names, i.e. whether
the seed construction of `get_ik` (lines 101-104) succeeds without a
`KeyError`. -/
def hasAllJoints (c : JointConfig) : Bool :=
  jointNames.all (fun n => (lookupJ c n).isSome)

/-- `get_ik(pose, q_initial)` (lines 64-135).  The seed is built from
`q_initial` before the `try` block, so a missing joint name raises
`KeyError` before any service interaction.  Otherwise the call waits up to
5.0 s for the service; timeout (`ROSException`) or invocation fault
(`ServiceException`) are caught and return the default invalid
`JointResult`; a response with `result_type[0] > 0` yields a valid result
with `dict(zip(names, positions))`, and any other result code returns the
default invalid result. -/
def get_ik (o : ServiceOutcome) (pose : Pose) (q_initial : JointConfig) :
    List Event × Except PyError JointResult :=
  if hasAllJoints q_initial then
    match o with
    | ServiceOutcome.unavailable =>
        ([Event.waitService 5], Except.ok { jangles := [], valid := false })
    | ServiceOutcome.commFault =>
        ([Event.waitService 5, Event.callService],
         Except.ok { jangles := [], valid := false })
    | ServiceOutcome.respond rc names positions =>
        if 0 < rc then
          ([Event.waitService 5, Event.callService],
           Except.ok { jangles := dictZip names positions, valid := true })
        else
          ([Event.waitService 5, Event.callService],
           Except.ok { jangles := [], valid := false })
  else ([], Except.error PyError.keyError)

/-- One waypoint block of `pick_place`: `result = get_ik(pose, seed)`
followed by `if (result.valid): limb.move_to_joint_positions(result.jangles)`.
`i` is the waypoint index (0-5, in source order). -/
def doWaypoint (i : Nat) (o : ServiceOutcome) (pose : Pose)
    (seed : JointConfig) : List Event × Except PyError JointResult :=
  match get_ik o pose seed with
  | (evs, Except.error e) => (Event.ikCall i pose seed :: evs, Except.error e)
  | (evs, Except.ok r) =>
      (Event.ikCall i pose seed :: evs ++ [Event.ikRet i r] ++
        (if r.valid then [Event.moveArm i r.jangles] else []),
       Except.ok r)

/-- Outcome of a run: the event trace emitted before returning or before an
uncaught exception, and the exception if one was raised. -/
structure ExecResult where
  trace : List Event
  error : Option PyError
  deriving DecidableEq

/-- `pick_place(limb, gripper, pose_initial, pose_final, gripper_opening,
zpre_grasp, qinit)` (lines 138-203).  Six waypoints in source order:
pre-grasp, grasp, (gripper close + 1.0 s sleep), lift, transfer, place,
(gripper open + 1.0 s sleep), retreat.  Each waypoint's `get_ik` is seeded
with `result.jangles` of the previous call (`qinit` for the first), whether
or not that result was valid. -/
def pick_place (o1 o2 o3 o4 o5 o6 : ServiceOutcome)
    (pose_initial pose_final : Pose) (gripper_opening zpre_grasp : ℚ)
    (qinit : JointConfig) : ExecResult :=
  let xi := pose_initial.1.x
  let yi := pose_initial.1.y
  let zi := pose_initial.1.z
  let quat_i := pose_initial.2
  let xf := pose_final.1.x
  let yf := pose_final.1.y
  let zf := pose_final.1.z
  let quat_f := pose_final.2
  match doWaypoint 0 o1 (⟨xi, yi, zi + zpre_grasp⟩, quat_i) qinit with
  | (t1, Except.error e) => ⟨t1, some e⟩
  | (t1, Except.ok r1) =>
    match doWaypoint 1 o2 (⟨xi, yi, zi⟩, quat_i) r1.jangles with
    | (t2, Except.error e) => ⟨t1 ++ t2, some e⟩
    | (t2, Except.ok r2) =>
      let tg1 : List Event := [Event.gripperSet gripper_opening, Event.sleep 1]
      match doWaypoint 2 o3 (⟨xi, yi, zi + zpre_grasp⟩, quat_i) r2.jangles with
      | (t3, Except.error e) => ⟨t1 ++ t2 ++ tg1 ++ t3, some e⟩
      | (t3, Except.ok r3) =>
        match doWaypoint 3 o4 (⟨xf, yf, zf + zpre_grasp⟩, quat_f) r3.jangles with
        | (t4, Except.error e) => ⟨t1 ++ t2 ++ tg1 ++ t3 ++ t4, some e⟩
        | (t4, Except.ok r4) =>
          match doWaypoint 4 o5 (⟨xf, yf, zf⟩, quat_f) r4.jangles with
          | (t5, Except.error e) => ⟨t1 ++ t2 ++ tg1 ++ t3 ++ t4 ++ t5, some e⟩
          | (t5, Except.ok r5) =>
            let tg2 : List Event := [Event.gripperOpen, Event.sleep 1]
            match doWaypoint 5 o6 (⟨xf, yf, zf + zpre_grasp⟩, quat_f) r5.jangles with
            | (t6, Except.error e) =>
                ⟨t1 ++ t2 ++ tg1 ++ t3 ++ t4 ++ t5 ++ tg2 ++ t6, some e⟩
            | (t6, Except.ok _) =>
                ⟨t1 ++ t2 ++ tg1 ++ t3 ++ t4 ++ t5 ++ tg2 ++ t6, none⟩

/-- Modelled from the spec: `quaternionFromAxisAngle(180.0, (0.0, 1.0, 0.0))`
is defined in `utils.py`, which is not among the sources; per the spec it is
the 180°-about-Y unit quaternion, i.e. `(w,x,y,z) = (0,0,1,0)`. -/
def q180 : Quat := ⟨0, 0, 1, 0⟩

/-- Result of the gripper setup `try` block of `main` (lines 212-219):
either the gripper is constructed and calibrated (with its
`MAX_POSITION`), or a `ValueError` is caught and `main` returns. -/
inductive GripperSetup where
  | ok (maxPosition : ℚ)
  | failure
  deriving DecidableEq

/-- The six (initial pose, final pose) pairs of the demo batch in `main`
(lines 266-332), all with the 180°-about-Y orientation. -/
def demoTasks : List (Pose × Pose) :=
  [((⟨0.6, 0.50, 0.03⟩, q180), (⟨0.6, -0.5, 0.02⟩, q180)),
   ((⟨0.6, 0.40, 0.03⟩, q180), (⟨0.6, -0.42, 0.02⟩, q180)),
   ((⟨0.6, 0.32, 0.03⟩, q180), (⟨0.6, -0.34, 0.02⟩, q180)),
   ((⟨0.7, 0.5, 0.03⟩, q180), (⟨0.6, -0.46, 0.12⟩, q180)),
   ((⟨0.7, 0.4, 0.03⟩, q180), (⟨0.6, -0.38, 0.12⟩, q180)),
   ((⟨0.7, 0.32, 0.03⟩, q180), (⟨0.6, -0.42, 0.22⟩, q180))]

/-- Run the batch of transfers of `main`: one `pick_place` per task, each
consuming the next six service outcomes of `env`; an uncaught exception in
one transfer aborts the batch. -/
def runTasks (env : Nat → ServiceOutcome) (gripper_opening zpre_grasp : ℚ)
    (qneutral : JointConfig) : Nat → List (Pose × Pose) → ExecResult
  | _, [] => ⟨[], none⟩
  | base, (pinit, pfinal) :: rest =>
    let r := pick_place (env base) (env (base+1)) (env (base+2))
      (env (base+3)) (env (base+4)) (env (base+5)) pinit pfinal
      gripper_opening zpre_grasp qneutral
    match r.error with
    | some e => ⟨r.trace, some e⟩
    | none =>
      let rr := runTasks env gripper_opening zpre_grasp qneutral (base+6) rest
      ⟨r.trace ++ rr.trace, rr.error⟩

/-- `main()` (lines 205-339).  If gripper construction or calibration
raises `ValueError`, the handler logs and returns before any motion or
display.  Otherwise: `dgripper = MAX_POSITION / 5`, display, move to
neutral, open the gripper, read the neutral joint angles (`qneutral`,
supplied here as a parameter since it is read from the robot), run the six
demo transfers with `gripper_opening = 3.5 * dgripper` and
`z_pre_grasp = 0.20`, then move to neutral again and display. -/
def mainRun (setup : GripperSetup) (qneutral : JointConfig)
    (env : Nat → ServiceOutcome) : ExecResult :=
  match setup with
  | GripperSetup.failure => ⟨[], none⟩
  | GripperSetup.ok maxPosition =>
    let dgripper := maxPosition / 5
    let pre : List Event := [Event.gripperCalibrate,
      Event.displayImage "up1.jpg", Event.moveNeutral, Event.gripperOpen]
    let gripper_opening := 3.5 * dgripper
    let z_pre_grasp : ℚ := 0.20
    let body := runTasks env gripper_opening z_pre_grasp qneutral 0 demoTasks
    match body.error with
    | some e => ⟨pre ++ body.trace, some e⟩
    | none =>
        ⟨pre ++ body.trace ++ [Event.moveNeutral,
          Event.displayImage "sleep1.png"], none⟩

/-! ### Observations on outcomes and traces -/

/-- Whether a service outcome yields a valid IK result
(`result_type[0] > 0`). -/
def outcomeValid : ServiceOutcome → Bool
  | ServiceOutcome.respond rc _ _ => decide (0 < rc)
  | _ => false

/-- The configuration a valid response carries
(`dict(zip(names, positions))`). -/
def outcomeConfig : ServiceOutcome → JointConfig
  | ServiceOutcome.respond _ names positions => dictZip names positions
  | _ => []

/-- Well-formedness of a service response: a valid response names all
seven arm joints (the real IK service always does). -/
def outcomeWF (o : ServiceOutcome) : Bool :=
  !outcomeValid o || hasAllJoints (outcomeConfig o)

/-- Pose and seed argument of the `get_ik` call for waypoint `i`. -/
def ikCallAt (t : List Event) (i : Nat) : Option (Pose × JointConfig) :=
  (t.filterMap fun e => match e with
    | Event.ikCall j p s => if j == i then some (p, s) else none
    | _ => none).head?

/-- Result returned by the `get_ik` call for waypoint `i`. -/
def ikRetAt (t : List Event) (i : Nat) : Option JointResult :=
  (t.filterMap fun e => match e with
    | Event.ikRet j r => if j == i then some r else none
    | _ => none).head?

/-- Target poses of the IK calls, in order. -/
def ikPosesOf (t : List Event) : List Pose :=
  t.filterMap fun e => match e with
    | Event.ikCall _ p _ => some p
    | _ => none

/-- Abstract commands: arm motion for a waypoint, gripper close to an
opening, gripper open. -/
inductive CmdK where
  | arm (i : Nat)
  | close (opening : ℚ)
  | release
  deriving DecidableEq

/-- The command an event represents, if any. -/
def cmdOf : Event → Option CmdK
  | Event.moveArm i _ => some (CmdK.arm i)
  | Event.gripperSet g => some (CmdK.close g)
  | Event.gripperOpen => some CmdK.release
  | _ => none

/-- Arm and gripper commands of a trace, in order. -/
def cmdsOf (t : List Event) : List CmdK := t.filterMap cmdOf

/-- Configurations commanded to the arm, in order. -/
def armMovesOf (t : List Event) : List JointConfig :=
  t.filterMap fun e => match e with
    | Event.moveArm _ q => some q
    | _ => none

/-- Configurations of the valid IK results of a trace, in order. -/
def validRetsOf (t : List Event) : List JointConfig :=
  t.filterMap fun e => match e with
    | Event.ikRet _ r => if r.valid then some r.jangles else none
    | _ => none

/-- Number of service invocations in a trace. -/
def svcCallCount (t : List Event) : Nat :=
  t.countP fun e => match e with
    | Event.callService => true
    | _ => false

/-- Number of motion and gripper commands (waypoint moves, neutral moves,
gripper close/open) in a trace. -/
def motionCount (t : List Event) : Nat :=
  t.countP fun e => match e with
    | Event.moveArm _ _ => true
    | Event.moveNeutral => true
    | Event.gripperSet _ => true
    | Event.gripperOpen => true
    | _ => false

/-- The arm-motion command issued for waypoint `i`, if any. -/
def armMoveAt (t : List Event) (i : Nat) : Option JointConfig :=
  (t.filterMap fun e => match e with
    | Event.moveArm j q => if j == i then some q else none
    | _ => none).head?

/-- The gripper actions of a trace, in order. -/
def gripsOf (t : List Event) : List Event :=
  t.filter fun e => match e with
    | Event.gripperSet _ => true
    | Event.gripperOpen => true
    | _ => false

/-- Actuator-level actions: arm motions, gripper actions and settle pauses. -/
inductive CmdA where
  | arm (i : Nat)
  | close (opening : ℚ)
  | release
  | pause (duration : ℚ)
  deriving DecidableEq

/-- The actuator action an event represents, if any. -/
def actOf : Event → Option CmdA
  | Event.moveArm i _ => some (CmdA.arm i)
  | Event.gripperSet g => some (CmdA.close g)
  | Event.gripperOpen => some CmdA.release
  | Event.sleep d => some (CmdA.pause d)
  | _ => none

/-- The actuator actions of a trace, in order. -/
def actsOf (t : List Event) : List CmdA := t.filterMap actOf

/-- Whether every gripper action in an action sequence is immediately
followed by a settle pause of 1 time unit. -/
def settledA : List CmdA → Bool
  | [] => true
  | CmdA.close _ :: r =>
      match r with
      | CmdA.pause d :: r2 => decide (d = 1) && settledA r2
      | _ => false
  | CmdA.release :: r =>
      match r with
      | CmdA.pause d :: r2 => decide (d = 1) && settledA r2
      | _ => false
  | _ :: r => settledA r

/-! ### Concrete instances used in scenario theorems -/

/-- A concrete all-zeros full joint configuration. -/
def q0 : JointConfig := jointNames.map (fun n => (n, 0))

/-- A concrete well-formed valid service outcome. -/
def oV : ServiceOutcome :=
  ServiceOutcome.respond 1 jointNames [0, 0, 0, 0, 0, 0, 0]

/-- A concrete invalid service outcome (service responded, result code 0). -/
def oI : ServiceOutcome := ServiceOutcome.respond 0 [] []

/-! ### Classification of `get_ik` and `doWaypoint` -/

/-- Service-interaction events of one `get_ik` attempt. -/
def svcEventsOf (o : ServiceOutcome) : List Event :=
  match o with
  | ServiceOutcome.unavailable => [Event.waitService 5]
  | _ => [Event.waitService 5, Event.callService]

/-- The `JointResult` that `get_ik` returns for outcome `o` when the seed
is complete. -/
def resultOf (o : ServiceOutcome) : JointResult :=
  { jangles := if outcomeValid o then outcomeConfig o else [],
    valid := outcomeValid o }

lemma get_ik_eq (o : ServiceOutcome) (pose : Pose) (s : JointConfig) :
    get_ik o pose s =
      if hasAllJoints s then (svcEventsOf o, Except.ok (resultOf o))
      else ([], Except.error PyError.keyError) := by
  cases o with
  | unavailable =>
      simp [get_ik, svcEventsOf, resultOf, outcomeValid, outcomeConfig]
  | commFault =>
      simp [get_ik, svcEventsOf, resultOf, outcomeValid, outcomeConfig]
  | respond rc names positions =>
      by_cases h : (0:ℤ) < rc <;>
        simp [get_ik, svcEventsOf, resultOf, outcomeValid, outcomeConfig, h]

lemma hasAllJoints_nil : hasAllJoints ([] : JointConfig) = false := rfl

lemma doWaypoint_eq (i : Nat) (o : ServiceOutcome) (pose : Pose)
    (s : JointConfig) :
    doWaypoint i o pose s =
      if hasAllJoints s then
        (Event.ikCall i pose s :: svcEventsOf o ++
          [Event.ikRet i (resultOf o)] ++
          (if outcomeValid o then [Event.moveArm i (outcomeConfig o)] else []),
         Except.ok (resultOf o))
      else ([Event.ikCall i pose s], Except.error PyError.keyError) := by
  rw [doWaypoint, get_ik_eq]
  by_cases h : hasAllJoints s <;> by_cases hv : outcomeValid o <;>
    simp [h, hv, resultOf]

/-! ### Service events are invisible to the trace observations -/

lemma ikCallAt_append (a b : List Event) (i : Nat) :
    ikCallAt (a ++ b) i = (ikCallAt a i).or (ikCallAt b i) := by
  simp [ikCallAt, List.filterMap_append, List.head?_append]

lemma ikRetAt_append (a b : List Event) (i : Nat) :
    ikRetAt (a ++ b) i = (ikRetAt a i).or (ikRetAt b i) := by
  simp [ikRetAt, List.filterMap_append, List.head?_append]

lemma armMoveAt_append (a b : List Event) (i : Nat) :
    armMoveAt (a ++ b) i = (armMoveAt a i).or (armMoveAt b i) := by
  simp [armMoveAt, List.filterMap_append, List.head?_append]

lemma ikPosesOf_append (a b : List Event) :
    ikPosesOf (a ++ b) = ikPosesOf a ++ ikPosesOf b := by
  simp [ikPosesOf, List.filterMap_append]

lemma cmdsOf_append (a b : List Event) :
    cmdsOf (a ++ b) = cmdsOf a ++ cmdsOf b := by
  simp [cmdsOf, List.filterMap_append]

lemma actsOf_append (a b : List Event) :
    actsOf (a ++ b) = actsOf a ++ actsOf b := by
  simp [actsOf, List.filterMap_append]

lemma gripsOf_append (a b : List Event) :
    gripsOf (a ++ b) = gripsOf a ++ gripsOf b := by
  simp [gripsOf]

lemma ikCallAt_svc (o : ServiceOutcome) (i : Nat) :
    ikCallAt (svcEventsOf o) i = none := by
  cases o <;> rfl

lemma ikRetAt_svc (o : ServiceOutcome) (i : Nat) :
    ikRetAt (svcEventsOf o) i = none := by
  cases o <;> rfl

lemma armMoveAt_svc (o : ServiceOutcome) (i : Nat) :
    armMoveAt (svcEventsOf o) i = none := by
  cases o <;> rfl

lemma ikPosesOf_svc (o : ServiceOutcome) : ikPosesOf (svcEventsOf o) = [] := by
  cases o <;> rfl

lemma cmdsOf_svc (o : ServiceOutcome) : cmdsOf (svcEventsOf o) = [] := by
  cases o <;> rfl

lemma actsOf_svc (o : ServiceOutcome) : actsOf (svcEventsOf o) = [] := by
  cases o <;> rfl

lemma gripsOf_svc (o : ServiceOutcome) : gripsOf (svcEventsOf o) = [] := by
  cases o <;> rfl

lemma filterMap_svcEventsOf {α : Type} (f : Event → Option α)
    (o : ServiceOutcome) (h5 : ∀ d, f (Event.waitService d) = none)
    (hc : f Event.callService = none) :
    List.filterMap f (svcEventsOf o) = [] := by
  cases o <;> simp [svcEventsOf, h5, hc]

lemma filter_svcEventsOf (f : Event → Bool)
    (o : ServiceOutcome) (h5 : ∀ d, f (Event.waitService d) = false)
    (hc : f Event.callService = false) :
    List.filter f (svcEventsOf o) = [] := by
  cases o <;> simp [svcEventsOf, h5, hc]

/-- The events of one waypoint block whose seed construction succeeded. -/
def wblock (i : Nat) (o : ServiceOutcome) (pose : Pose)
    (s : JointConfig) : List Event :=
  Event.ikCall i pose s :: svcEventsOf o ++ [Event.ikRet i (resultOf o)] ++
    (if outcomeValid o then [Event.moveArm i (outcomeConfig o)] else [])

lemma doWaypoint_eq2 (i : Nat) (o : ServiceOutcome) (pose : Pose)
    (s : JointConfig) :
    doWaypoint i o pose s =
      if hasAllJoints s then (wblock i o pose s, Except.ok (resultOf o))
      else ([Event.ikCall i pose s], Except.error PyError.keyError) := by
  rw [doWaypoint_eq, wblock]

/-- The target pose of waypoint `i` for a transfer from `ps` to `pe` with
clearance `h`. -/
def wpPose (ps pe : Pose) (h : ℚ) : Nat → Pose
  | 0 => (⟨ps.1.x, ps.1.y, ps.1.z + h⟩, ps.2)
  | 1 => (⟨ps.1.x, ps.1.y, ps.1.z⟩, ps.2)
  | 2 => (⟨ps.1.x, ps.1.y, ps.1.z + h⟩, ps.2)
  | 3 => (⟨pe.1.x, pe.1.y, pe.1.z + h⟩, pe.2)
  | 4 => (⟨pe.1.x, pe.1.y, pe.1.z⟩, pe.2)
  | _ => (⟨pe.1.x, pe.1.y, pe.1.z + h⟩, pe.2)

lemma ikCallAt_wblock (i : Nat) (o : ServiceOutcome) (pose : Pose)
    (s : JointConfig) (j : Nat) :
    ikCallAt (wblock i o pose s) j =
      if i == j then some (pose, s) else none := by
  by_cases hv : outcomeValid o = true <;> by_cases hij : i == j <;>
    simp_all [wblock, ikCallAt, filterMap_svcEventsOf, List.filterMap_append]

lemma ikRetAt_wblock (i : Nat) (o : ServiceOutcome) (pose : Pose)
    (s : JointConfig) (j : Nat) :
    ikRetAt (wblock i o pose s) j =
      if i == j then some (resultOf o) else none := by
  by_cases hv : outcomeValid o = true <;> by_cases hij : i == j <;>
    simp_all [wblock, ikRetAt, filterMap_svcEventsOf, List.filterMap_append]

lemma armMoveAt_wblock (i : Nat) (o : ServiceOutcome) (pose : Pose)
    (s : JointConfig) (j : Nat) :
    armMoveAt (wblock i o pose s) j =
      if i == j && outcomeValid o then some (outcomeConfig o) else none := by
  by_cases hv : outcomeValid o = true <;> by_cases hij : i == j <;>
    simp_all [wblock, armMoveAt, filterMap_svcEventsOf, List.filterMap_append]

lemma ikPosesOf_wblock (i : Nat) (o : ServiceOutcome) (pose : Pose)
    (s : JointConfig) :
    ikPosesOf (wblock i o pose s) = [pose] := by
  by_cases hv : outcomeValid o = true <;>
    simp_all [wblock, ikPosesOf, filterMap_svcEventsOf, List.filterMap_append]

lemma cmdsOf_wblock (i : Nat) (o : ServiceOutcome) (pose : Pose)
    (s : JointConfig) :
    cmdsOf (wblock i o pose s) =
      if outcomeValid o then [CmdK.arm i] else [] := by
  by_cases hv : outcomeValid o = true <;>
    simp_all [wblock, cmdsOf, cmdOf, filterMap_svcEventsOf, List.filterMap_append]

lemma actsOf_wblock (i : Nat) (o : ServiceOutcome) (pose : Pose)
    (s : JointConfig) :
    actsOf (wblock i o pose s) =
      if outcomeValid o then [CmdA.arm i] else [] := by
  by_cases hv : outcomeValid o = true <;>
    simp_all [wblock, actsOf, actOf, filterMap_svcEventsOf, List.filterMap_append]

lemma gripsOf_wblock (i : Nat) (o : ServiceOutcome) (pose : Pose)
    (s : JointConfig) :
    gripsOf (wblock i o pose s) = [] := by
  by_cases hv : outcomeValid o = true <;>
    cases o <;> simp_all [wblock, gripsOf, svcEventsOf]

/-! ### Path structure of `pick_place` -/

lemma pick_place_crash1 (o1 o2 o3 o4 o5 o6 : ServiceOutcome) (ps pe : Pose)
    (g h : ℚ) (q : JointConfig) (hq : hasAllJoints q = false) :
    pick_place o1 o2 o3 o4 o5 o6 ps pe g h q =
      ⟨[Event.ikCall 0 (wpPose ps pe h 0) q], some PyError.keyError⟩ := by
  simp [pick_place, doWaypoint_eq2, hq, wpPose]

lemma pick_place_crash2 (o1 o2 o3 o4 o5 o6 : ServiceOutcome) (ps pe : Pose)
    (g h : ℚ) (q : JointConfig) (hq : hasAllJoints q = true)
    (h1 : hasAllJoints (resultOf o1).jangles = false) :
    pick_place o1 o2 o3 o4 o5 o6 ps pe g h q =
      ⟨wblock 0 o1 (wpPose ps pe h 0) q ++
        [Event.ikCall 1 (wpPose ps pe h 1) (resultOf o1).jangles],
       some PyError.keyError⟩ := by
  simp [pick_place, doWaypoint_eq2, hq, h1, wpPose]

lemma pick_place_crash3 (o1 o2 o3 o4 o5 o6 : ServiceOutcome) (ps pe : Pose)
    (g h : ℚ) (q : JointConfig) (hq : hasAllJoints q = true)
    (h1 : hasAllJoints (resultOf o1).jangles = true)
    (h2 : hasAllJoints (resultOf o2).jangles = false) :
    pick_place o1 o2 o3 o4 o5 o6 ps pe g h q =
      ⟨wblock 0 o1 (wpPose ps pe h 0) q ++
        wblock 1 o2 (wpPose ps pe h 1) (resultOf o1).jangles ++
        [Event.gripperSet g, Event.sleep 1] ++
        [Event.ikCall 2 (wpPose ps pe h 2) (resultOf o2).jangles],
       some PyError.keyError⟩ := by
  simp [pick_place, doWaypoint_eq2, hq, h1, h2, wpPose]

lemma pick_place_crash4 (o1 o2 o3 o4 o5 o6 : ServiceOutcome) (ps pe : Pose)
    (g h : ℚ) (q : JointConfig) (hq : hasAllJoints q = true)
    (h1 : hasAllJoints (resultOf o1).jangles = true)
    (h2 : hasAllJoints (resultOf o2).jangles = true)
    (h3 : hasAllJoints (resultOf o3).jangles = false) :
    pick_place o1 o2 o3 o4 o5 o6 ps pe g h q =
      ⟨wblock 0 o1 (wpPose ps pe h 0) q ++
        wblock 1 o2 (wpPose ps pe h 1) (resultOf o1).jangles ++
        [Event.gripperSet g, Event.sleep 1] ++
        wblock 2 o3 (wpPose ps pe h 2) (resultOf o2).jangles ++
        [Event.ikCall 3 (wpPose ps pe h 3) (resultOf o3).jangles],
       some PyError.keyError⟩ := by
  simp [pick_place, doWaypoint_eq2, hq, h1, h2, h3, wpPose]

lemma pick_place_crash5 (o1 o2 o3 o4 o5 o6 : ServiceOutcome) (ps pe : Pose)
    (g h : ℚ) (q : JointConfig) (hq : hasAllJoints q = true)
    (h1 : hasAllJoints (resultOf o1).jangles = true)
    (h2 : hasAllJoints (resultOf o2).jangles = true)
    (h3 : hasAllJoints (resultOf o3).jangles = true)
    (h4 : hasAllJoints (resultOf o4).jangles = false) :
    pick_place o1 o2 o3 o4 o5 o6 ps pe g h q =
      ⟨wblock 0 o1 (wpPose ps pe h 0) q ++
        wblock 1 o2 (wpPose ps pe h 1) (resultOf o1).jangles ++
        [Event.gripperSet g, Event.sleep 1] ++
        wblock 2 o3 (wpPose ps pe h 2) (resultOf o2).jangles ++
        wblock 3 o4 (wpPose ps pe h 3) (resultOf o3).jangles ++
        [Event.ikCall 4 (wpPose ps pe h 4) (resultOf o4).jangles],
       some PyError.keyError⟩ := by
  simp [pick_place, doWaypoint_eq2, hq, h1, h2, h3, h4, wpPose]

lemma pick_place_crash6 (o1 o2 o3 o4 o5 o6 : ServiceOutcome) (ps pe : Pose)
    (g h : ℚ) (q : JointConfig) (hq : hasAllJoints q = true)
    (h1 : hasAllJoints (resultOf o1).jangles = true)
    (h2 : hasAllJoints (resultOf o2).jangles = true)
    (h3 : hasAllJoints (resultOf o3).jangles = true)
    (h4 : hasAllJoints (resultOf o4).jangles = true)
    (h5 : hasAllJoints (resultOf o5).jangles = false) :
    pick_place o1 o2 o3 o4 o5 o6 ps pe g h q =
      ⟨wblock 0 o1 (wpPose ps pe h 0) q ++
        wblock 1 o2 (wpPose ps pe h 1) (resultOf o1).jangles ++
        [Event.gripperSet g, Event.sleep 1] ++
        wblock 2 o3 (wpPose ps pe h 2) (resultOf o2).jangles ++
        wblock 3 o4 (wpPose ps pe h 3) (resultOf o3).jangles ++
        wblock 4 o5 (wpPose ps pe h 4) (resultOf o4).jangles ++
        [Event.gripperOpen, Event.sleep 1] ++
        [Event.ikCall 5 (wpPose ps pe h 5) (resultOf o5).jangles],
       some PyError.keyError⟩ := by
  simp [pick_place, doWaypoint_eq2, hq, h1, h2, h3, h4, h5, wpPose]

lemma pick_place_complete (o1 o2 o3 o4 o5 o6 : ServiceOutcome) (ps pe : Pose)
    (g h : ℚ) (q : JointConfig) (hq : hasAllJoints q = true)
    (h1 : hasAllJoints (resultOf o1).jangles = true)
    (h2 : hasAllJoints (resultOf o2).jangles = true)
    (h3 : hasAllJoints (resultOf o3).jangles = true)
    (h4 : hasAllJoints (resultOf o4).jangles = true)
    (h5 : hasAllJoints (resultOf o5).jangles = true) :
    pick_place o1 o2 o3 o4 o5 o6 ps pe g h q =
      ⟨wblock 0 o1 (wpPose ps pe h 0) q ++
        wblock 1 o2 (wpPose ps pe h 1) (resultOf o1).jangles ++
        [Event.gripperSet g, Event.sleep 1] ++
        wblock 2 o3 (wpPose ps pe h 2) (resultOf o2).jangles ++
        wblock 3 o4 (wpPose ps pe h 3) (resultOf o3).jangles ++
        wblock 4 o5 (wpPose ps pe h 4) (resultOf o4).jangles ++
        [Event.gripperOpen, Event.sleep 1] ++
        wblock 5 o6 (wpPose ps pe h 5) (resultOf o5).jangles,
       none⟩ := by
  simp [pick_place, doWaypoint_eq2, hq, h1, h2, h3, h4, h5, wpPose]

/-! ### Observations on the fixed trace segments -/

lemma ikCallAt_tg1 (g : ℚ) (j : Nat) :
    ikCallAt [Event.gripperSet g, Event.sleep 1] j = none := rfl

lemma ikCallAt_tg2 (j : Nat) :
    ikCallAt [Event.gripperOpen, Event.sleep 1] j = none := rfl

lemma ikCallAt_single (i : Nat) (p : Pose) (s : JointConfig) (j : Nat) :
    ikCallAt [Event.ikCall i p s] j = if i == j then some (p, s) else none := by
  by_cases hij : i == j <;> simp_all [ikCallAt]

lemma ikRetAt_tg1 (g : ℚ) (j : Nat) :
    ikRetAt [Event.gripperSet g, Event.sleep 1] j = none := rfl

lemma ikRetAt_tg2 (j : Nat) :
    ikRetAt [Event.gripperOpen, Event.sleep 1] j = none := rfl

lemma ikRetAt_single (i : Nat) (p : Pose) (s : JointConfig) (j : Nat) :
    ikRetAt [Event.ikCall i p s] j = none := rfl

lemma armMoveAt_tg1 (g : ℚ) (j : Nat) :
    armMoveAt [Event.gripperSet g, Event.sleep 1] j = none := rfl

lemma armMoveAt_tg2 (j : Nat) :
    armMoveAt [Event.gripperOpen, Event.sleep 1] j = none := rfl

lemma armMoveAt_single (i : Nat) (p : Pose) (s : JointConfig) (j : Nat) :
    armMoveAt [Event.ikCall i p s] j = none := rfl

lemma ikPosesOf_tg1 (g : ℚ) :
    ikPosesOf [Event.gripperSet g, Event.sleep 1] = [] := rfl

lemma ikPosesOf_tg2 : ikPosesOf [Event.gripperOpen, Event.sleep 1] = [] := rfl

lemma ikPosesOf_single (i : Nat) (p : Pose) (s : JointConfig) :
    ikPosesOf [Event.ikCall i p s] = [p] := rfl

lemma cmdsOf_tg1 (g : ℚ) :
    cmdsOf [Event.gripperSet g, Event.sleep 1] = [CmdK.close g] := rfl

lemma cmdsOf_tg2 : cmdsOf [Event.gripperOpen, Event.sleep 1] = [CmdK.release] := rfl

lemma cmdsOf_single (i : Nat) (p : Pose) (s : JointConfig) :
    cmdsOf [Event.ikCall i p s] = [] := rfl

lemma actsOf_tg1 (g : ℚ) :
    actsOf [Event.gripperSet g, Event.sleep 1] = [CmdA.close g, CmdA.pause 1] := rfl

lemma actsOf_tg2 :
    actsOf [Event.gripperOpen, Event.sleep 1] = [CmdA.release, CmdA.pause 1] := rfl

lemma actsOf_single (i : Nat) (p : Pose) (s : JointConfig) :
    actsOf [Event.ikCall i p s] = [] := rfl

lemma gripsOf_tg1 (g : ℚ) :
    gripsOf [Event.gripperSet g, Event.sleep 1] = [Event.gripperSet g] := rfl

lemma gripsOf_tg2 : gripsOf [Event.gripperOpen, Event.sleep 1] = [Event.gripperOpen] := rfl

lemma gripsOf_single (i : Nat) (p : Pose) (s : JointConfig) :
    gripsOf [Event.ikCall i p s] = [] := rfl

/-- For a well-formed outcome, the returned configuration is complete
exactly when the outcome is valid. -/
lemma hasAllJoints_resultOf (o : ServiceOutcome) (hwf : outcomeWF o = true) :
    hasAllJoints (resultOf o).jangles = outcomeValid o := by
  cases hv : outcomeValid o <;>
    simp_all [resultOf, outcomeWF, hasAllJoints_nil]

lemma resultOf_valid (o : ServiceOutcome) :
    (resultOf o).valid = outcomeValid o := rfl

/-! ### Cons-step lemmas for the inter-block events -/

lemma ikCallAt_cons_gripperSet (g : ℚ) (t : List Event) (j : Nat) :
    ikCallAt (Event.gripperSet g :: t) j = ikCallAt t j := rfl

lemma ikCallAt_cons_gripperOpen (t : List Event) (j : Nat) :
    ikCallAt (Event.gripperOpen :: t) j = ikCallAt t j := rfl

lemma ikCallAt_cons_sleep (d : ℚ) (t : List Event) (j : Nat) :
    ikCallAt (Event.sleep d :: t) j = ikCallAt t j := rfl

lemma ikRetAt_cons_gripperSet (g : ℚ) (t : List Event) (j : Nat) :
    ikRetAt (Event.gripperSet g :: t) j = ikRetAt t j := rfl

lemma ikRetAt_cons_gripperOpen (t : List Event) (j : Nat) :
    ikRetAt (Event.gripperOpen :: t) j = ikRetAt t j := rfl

lemma ikRetAt_cons_sleep (d : ℚ) (t : List Event) (j : Nat) :
    ikRetAt (Event.sleep d :: t) j = ikRetAt t j := rfl

lemma armMoveAt_cons_gripperSet (g : ℚ) (t : List Event) (j : Nat) :
    armMoveAt (Event.gripperSet g :: t) j = armMoveAt t j := rfl

lemma armMoveAt_cons_gripperOpen (t : List Event) (j : Nat) :
    armMoveAt (Event.gripperOpen :: t) j = armMoveAt t j := rfl

lemma armMoveAt_cons_sleep (d : ℚ) (t : List Event) (j : Nat) :
    armMoveAt (Event.sleep d :: t) j = armMoveAt t j := rfl

lemma ikPosesOf_cons_gripperSet (g : ℚ) (t : List Event) :
    ikPosesOf (Event.gripperSet g :: t) = ikPosesOf t := rfl

lemma ikPosesOf_cons_gripperOpen (t : List Event) :
    ikPosesOf (Event.gripperOpen :: t) = ikPosesOf t := rfl

lemma ikPosesOf_cons_sleep (d : ℚ) (t : List Event) :
    ikPosesOf (Event.sleep d :: t) = ikPosesOf t := rfl

lemma cmdsOf_cons_gripperSet (g : ℚ) (t : List Event) :
    cmdsOf (Event.gripperSet g :: t) = CmdK.close g :: cmdsOf t := rfl

lemma cmdsOf_cons_gripperOpen (t : List Event) :
    cmdsOf (Event.gripperOpen :: t) = CmdK.release :: cmdsOf t := rfl

lemma cmdsOf_cons_sleep (d : ℚ) (t : List Event) :
    cmdsOf (Event.sleep d :: t) = cmdsOf t := rfl

lemma actsOf_cons_gripperSet (g : ℚ) (t : List Event) :
    actsOf (Event.gripperSet g :: t) = CmdA.close g :: actsOf t := rfl

lemma actsOf_cons_gripperOpen (t : List Event) :
    actsOf (Event.gripperOpen :: t) = CmdA.release :: actsOf t := rfl

lemma actsOf_cons_sleep (d : ℚ) (t : List Event) :
    actsOf (Event.sleep d :: t) = CmdA.pause d :: actsOf t := rfl

lemma gripsOf_cons_gripperSet (g : ℚ) (t : List Event) :
    gripsOf (Event.gripperSet g :: t) = Event.gripperSet g :: gripsOf t := rfl

lemma gripsOf_cons_gripperOpen (t : List Event) :
    gripsOf (Event.gripperOpen :: t) = Event.gripperOpen :: gripsOf t := rfl

lemma gripsOf_cons_sleep (d : ℚ) (t : List Event) :
    gripsOf (Event.sleep d :: t) = gripsOf t := rfl

lemma ikCallAt_nil (j : Nat) : ikCallAt [] j = none := rfl

lemma ikRetAt_nil (j : Nat) : ikRetAt [] j = none := rfl

lemma armMoveAt_nil (j : Nat) : armMoveAt [] j = none := rfl

lemma ikPosesOf_nil : ikPosesOf [] = [] := rfl

lemma cmdsOf_nil : cmdsOf [] = [] := rfl

lemma actsOf_nil : actsOf [] = [] := rfl

lemma gripsOf_nil : gripsOf [] = [] := rfl

/-- A result whose configuration passes the seed check must be valid
(invalid results carry the empty configuration). -/
lemma outcomeValid_of_seedOk (o : ServiceOutcome)
    (hj : hasAllJoints (resultOf o).jangles = true) :
    outcomeValid o = true := by
  cases hv : outcomeValid o
  · simp_all [resultOf, hasAllJoints_nil]
  · rfl

/-- Start pose of the first demo transfer (`pose_initial1`, line 268). -/
def poseInit1 : Pose := (⟨0.6, 0.50, 0.03⟩, q180)

/-- End pose of the first demo transfer (`pose_final1`, line 270). -/
def poseFinal1 : Pose := (⟨0.6, -0.5, 0.02⟩, q180)

/-- Recognizer for the arm-motion action of waypoint `i`. -/
def isArmA (i : Nat) : CmdA → Bool
  | CmdA.arm j => j == i
  | _ => false

/-- Recognizer for the gripper-close action. -/
def isCloseA : CmdA → Bool
  | CmdA.close _ => true
  | _ => false

/-- Recognizer for the gripper-open action. -/
def isReleaseA : CmdA → Bool
  | CmdA.release => true
  | _ => false

/-! ### Claim theorems -/

/-- C3: for every transfer task (start pose `ps`, end pose `pe`, clearance
`h`) and every run of `pick_place` that executes to completion, the IK
target poses attempted are exactly the six waypoints, in the fixed order
pre-grasp `(ps.x, ps.y, ps.z+h, qs)`, grasp `(ps.x, ps.y, ps.z, qs)`, lift
`(ps.x, ps.y, ps.z+h, qs)`, transfer `(pe.x, pe.y, pe.z+h, qe)`, place
`(pe.x, pe.y, pe.z, qe)`, retreat `(pe.x, pe.y, pe.z+h, qe)`, with
orientation `qs` on the first three and `qe` on the last three. -/
theorem pick_place_six_waypoint_plan (o1 o2 o3 o4 o5 o6 : ServiceOutcome) (ps pe : Pose)
    (g h : ℚ) (q : JointConfig)
    (hdone : (pick_place o1 o2 o3 o4 o5 o6 ps pe g h q).error = none) :
    ikPosesOf (pick_place o1 o2 o3 o4 o5 o6 ps pe g h q).trace =
      [(⟨ps.1.x, ps.1.y, ps.1.z + h⟩, ps.2), (⟨ps.1.x, ps.1.y, ps.1.z⟩, ps.2),
       (⟨ps.1.x, ps.1.y, ps.1.z + h⟩, ps.2),
       (⟨pe.1.x, pe.1.y, pe.1.z + h⟩, pe.2), (⟨pe.1.x, pe.1.y, pe.1.z⟩, pe.2),
       (⟨pe.1.x, pe.1.y, pe.1.z + h⟩, pe.2)] := by
  cases hc1 : hasAllJoints q
  · rw [pick_place_crash1 o1 o2 o3 o4 o5 o6 ps pe g h q hc1] at hdone
    simp at hdone
  cases hc2 : hasAllJoints (resultOf o1).jangles
  · rw [pick_place_crash2 o1 o2 o3 o4 o5 o6 ps pe g h q hc1 hc2] at hdone
    simp at hdone
  cases hc3 : hasAllJoints (resultOf o2).jangles
  · rw [pick_place_crash3 o1 o2 o3 o4 o5 o6 ps pe g h q hc1 hc2 hc3] at hdone
    simp at hdone
  cases hc4 : hasAllJoints (resultOf o3).jangles
  · rw [pick_place_crash4 o1 o2 o3 o4 o5 o6 ps pe g h q hc1 hc2 hc3 hc4] at hdone
    simp at hdone
  cases hc5 : hasAllJoints (resultOf o4).jangles
  · rw [pick_place_crash5 o1 o2 o3 o4 o5 o6 ps pe g h q hc1 hc2 hc3 hc4 hc5] at hdone
    simp at hdone
  cases hc6 : hasAllJoints (resultOf o5).jangles
  · rw [pick_place_crash6 o1 o2 o3 o4 o5 o6 ps pe g h q hc1 hc2 hc3 hc4 hc5 hc6] at hdone
    simp at hdone
  rw [pick_place_complete o1 o2 o3 o4 o5 o6 ps pe g h q hc1 hc2 hc3 hc4 hc5 hc6]
  simp [ikPosesOf_append, ikPosesOf_wblock, ikPosesOf_cons_gripperSet,
    ikPosesOf_cons_gripperOpen, ikPosesOf_cons_sleep, ikPosesOf_nil, wpPose]

/-- Witness for `pick_place_six_waypoint_plan`: the all-valid concrete run
from the vaso-1 task executes to completion, and the theorem instantiates
to its six-pose plan. -/
theorem pick_place_six_waypoint_plan_witness :
    ikPosesOf (pick_place oV oV oV oV oV oV poseInit1 poseFinal1 0.7 0.20
        q0).trace =
      [(⟨poseInit1.1.x, poseInit1.1.y, poseInit1.1.z + 0.20⟩, poseInit1.2),
       (⟨poseInit1.1.x, poseInit1.1.y, poseInit1.1.z⟩, poseInit1.2),
       (⟨poseInit1.1.x, poseInit1.1.y, poseInit1.1.z + 0.20⟩, poseInit1.2),
       (⟨poseFinal1.1.x, poseFinal1.1.y, poseFinal1.1.z + 0.20⟩, poseFinal1.2),
       (⟨poseFinal1.1.x, poseFinal1.1.y, poseFinal1.1.z⟩, poseFinal1.2),
       (⟨poseFinal1.1.x, poseFinal1.1.y, poseFinal1.1.z + 0.20⟩, poseFinal1.2)] :=
  pick_place_six_waypoint_plan oV oV oV oV oV oV poseInit1 poseFinal1 0.7 0.20
    q0 rfl

/-- C4: in every run of `pick_place`, if the IK call for waypoint `i`
returned the result `r` and the call for waypoint `i+1` was made with seed
`s`, then `s` is exactly `r.jangles`; in particular, after a valid solve
the next seed is value-equal to the returned configuration. -/
theorem pick_place_seed_propagation (o1 o2 o3 o4 o5 o6 : ServiceOutcome) (ps pe : Pose)
    (g h : ℚ) (q : JointConfig) (i : Nat) (hi : i + 1 < 6) (r : JointResult)
    (hr : ikRetAt (pick_place o1 o2 o3 o4 o5 o6 ps pe g h q).trace i = some r)
    (hv : r.valid = true) (p : Pose) (s : JointConfig)
    (hc : ikCallAt (pick_place o1 o2 o3 o4 o5 o6 ps pe g h q).trace (i + 1) =
      some (p, s)) :
    s = r.jangles := by
  have hi5 : i < 5 := by omega
  clear hi
  interval_cases i <;> (
  cases hc1 : hasAllJoints q
  · rw [pick_place_crash1 o1 o2 o3 o4 o5 o6 ps pe g h q hc1] at hr hc
    simp_all [ikRetAt_append, ikRetAt_wblock, ikRetAt_single, ikRetAt_cons_gripperSet,
    ikRetAt_cons_gripperOpen, ikRetAt_cons_sleep, ikRetAt_nil,
    ikCallAt_append, ikCallAt_wblock, ikCallAt_single, ikCallAt_cons_gripperSet,
    ikCallAt_cons_gripperOpen, ikCallAt_cons_sleep, ikCallAt_nil]
  cases hc2 : hasAllJoints (resultOf o1).jangles
  · rw [pick_place_crash2 o1 o2 o3 o4 o5 o6 ps pe g h q hc1 hc2] at hr hc
    simp_all [ikRetAt_append, ikRetAt_wblock, ikRetAt_single, ikRetAt_cons_gripperSet,
    ikRetAt_cons_gripperOpen, ikRetAt_cons_sleep, ikRetAt_nil,
    ikCallAt_append, ikCallAt_wblock, ikCallAt_single, ikCallAt_cons_gripperSet,
    ikCallAt_cons_gripperOpen, ikCallAt_cons_sleep, ikCallAt_nil]
  cases hc3 : hasAllJoints (resultOf o2).jangles
  · rw [pick_place_crash3 o1 o2 o3 o4 o5 o6 ps pe g h q hc1 hc2 hc3] at hr hc
    simp_all [ikRetAt_append, ikRetAt_wblock, ikRetAt_single, ikRetAt_cons_gripperSet,
    ikRetAt_cons_gripperOpen, ikRetAt_cons_sleep, ikRetAt_nil,
    ikCallAt_append, ikCallAt_wblock, ikCallAt_single, ikCallAt_cons_gripperSet,
    ikCallAt_cons_gripperOpen, ikCallAt_cons_sleep, ikCallAt_nil]
  cases hc4 : hasAllJoints (resultOf o3).jangles
  · rw [pick_place_crash4 o1 o2 o3 o4 o5 o6 ps pe g h q hc1 hc2 hc3 hc4] at hr hc
    simp_all [ikRetAt_append, ikRetAt_wblock, ikRetAt_single, ikRetAt_cons_gripperSet,
    ikRetAt_cons_gripperOpen, ikRetAt_cons_sleep, ikRetAt_nil,
    ikCallAt_append, ikCallAt_wblock, ikCallAt_single, ikCallAt_cons_gripperSet,
    ikCallAt_cons_gripperOpen, ikCallAt_cons_sleep, ikCallAt_nil]
  cases hc5 : hasAllJoints (resultOf o4).jangles
  · rw [pick_place_crash5 o1 o2 o3 o4 o5 o6 ps pe g h q hc1 hc2 hc3 hc4 hc5] at hr hc
    simp_all [ikRetAt_append, ikRetAt_wblock, ikRetAt_single, ikRetAt_cons_gripperSet,
    ikRetAt_cons_gripperOpen, ikRetAt_cons_sleep, ikRetAt_nil,
    ikCallAt_append, ikCallAt_wblock, ikCallAt_single, ikCallAt_cons_gripperSet,
    ikCallAt_cons_gripperOpen, ikCallAt_cons_sleep, ikCallAt_nil]
  cases hc6 : hasAllJoints (resultOf o5).jangles
  · rw [pick_place_crash6 o1 o2 o3 o4 o5 o6 ps pe g h q hc1 hc2 hc3 hc4 hc5 hc6] at hr hc
    simp_all [ikRetAt_append, ikRetAt_wblock, ikRetAt_single, ikRetAt_cons_gripperSet,
    ikRetAt_cons_gripperOpen, ikRetAt_cons_sleep, ikRetAt_nil,
    ikCallAt_append, ikCallAt_wblock, ikCallAt_single, ikCallAt_cons_gripperSet,
    ikCallAt_cons_gripperOpen, ikCallAt_cons_sleep, ikCallAt_nil]
  rw [pick_place_complete o1 o2 o3 o4 o5 o6 ps pe g h q hc1 hc2 hc3 hc4 hc5 hc6] at hr hc
  simp_all [ikRetAt_append, ikRetAt_wblock, ikRetAt_single, ikRetAt_cons_gripperSet,
    ikRetAt_cons_gripperOpen, ikRetAt_cons_sleep, ikRetAt_nil,
    ikCallAt_append, ikCallAt_wblock, ikCallAt_single, ikCallAt_cons_gripperSet,
    ikCallAt_cons_gripperOpen, ikCallAt_cons_sleep, ikCallAt_nil]
)

/-- Witness for `pick_place_seed_propagation`: in the all-valid concrete
run, the seed of waypoint 1 equals the configuration returned at
waypoint 0. -/
theorem pick_place_seed_propagation_witness :
    dictZip jointNames [0, 0, 0, 0, 0, 0, 0] =
      ({ jangles := dictZip jointNames [0, 0, 0, 0, 0, 0, 0], valid := true } :
        JointResult).jangles :=
  pick_place_seed_propagation oV oV oV oV oV oV poseInit1 poseFinal1 0.7 0.20
    q0 0 (by omega)
    { jangles := dictZip jointNames [0, 0, 0, 0, 0, 0, 0], valid := true }
    rfl rfl
    ((⟨poseInit1.1.x, poseInit1.1.y, poseInit1.1.z⟩, poseInit1.2))
    (dictZip jointNames [0, 0, 0, 0, 0, 0, 0]) rfl

/-- C1 counterexample: with a full seed `q0` and an invalid IK outcome at
waypoint 0, the seed passed to the waypoint-1 solve is the empty
configuration, not the seed `q0` that was in effect entering waypoint 0 —
refuting the claim that the seed is unchanged after an invalid solve. -/
theorem seed_not_unchanged_counterexample :
    ¬ ((ikCallAt (pick_place oI oV oV oV oV oV poseInit1 poseFinal1 0.7 0.20
        q0).trace 1).map Prod.snd = some q0) ∧
    (ikCallAt (pick_place oI oV oV oV oV oV poseInit1 poseFinal1 0.7 0.20
        q0).trace 1).map Prod.snd = some ([] : JointConfig) :=
  ⟨by decide, rfl⟩

/-- C1 (amended): if the IK solve for waypoint `i` returns an invalid
result, no arm-motion command is issued for waypoint `i`; however, the seed
passed to the solve for waypoint `i+1` is the invalid result's empty
configuration (not the last-known-valid configuration), whereupon that
solve fails on seed construction. -/
theorem pick_place_skip_on_invalid_amended (o1 o2 o3 o4 o5 o6 : ServiceOutcome) (ps pe : Pose)
    (g h : ℚ) (q : JointConfig) (i : Nat) (hi : i < 6) (r : JointResult)
    (hr : ikRetAt (pick_place o1 o2 o3 o4 o5 o6 ps pe g h q).trace i = some r)
    (hv : r.valid = false) :
    armMoveAt (pick_place o1 o2 o3 o4 o5 o6 ps pe g h q).trace i = none ∧
    (i + 1 < 6 → ∃ p', ikCallAt (pick_place o1 o2 o3 o4 o5 o6 ps pe g h q).trace
      (i + 1) = some (p', ([] : JointConfig))) := by
  interval_cases i <;> (
  cases hc1 : hasAllJoints q
  · rw [pick_place_crash1 o1 o2 o3 o4 o5 o6 ps pe g h q hc1] at hr ⊢
    simp_all [ikRetAt_append, ikRetAt_wblock, ikRetAt_single, ikRetAt_cons_gripperSet,
    ikRetAt_cons_gripperOpen, ikRetAt_cons_sleep, ikRetAt_nil,
    ikCallAt_append, ikCallAt_wblock, ikCallAt_single, ikCallAt_cons_gripperSet,
    ikCallAt_cons_gripperOpen, ikCallAt_cons_sleep, ikCallAt_nil,
    armMoveAt_append, armMoveAt_wblock, armMoveAt_single, armMoveAt_cons_gripperSet,
    armMoveAt_cons_gripperOpen, armMoveAt_cons_sleep, armMoveAt_nil,
    resultOf, hasAllJoints_nil] <;> (try subst hr) <;> (try simp_all)
  cases hc2 : hasAllJoints (resultOf o1).jangles
  · rw [pick_place_crash2 o1 o2 o3 o4 o5 o6 ps pe g h q hc1 hc2] at hr ⊢
    simp_all [ikRetAt_append, ikRetAt_wblock, ikRetAt_single, ikRetAt_cons_gripperSet,
    ikRetAt_cons_gripperOpen, ikRetAt_cons_sleep, ikRetAt_nil,
    ikCallAt_append, ikCallAt_wblock, ikCallAt_single, ikCallAt_cons_gripperSet,
    ikCallAt_cons_gripperOpen, ikCallAt_cons_sleep, ikCallAt_nil,
    armMoveAt_append, armMoveAt_wblock, armMoveAt_single, armMoveAt_cons_gripperSet,
    armMoveAt_cons_gripperOpen, armMoveAt_cons_sleep, armMoveAt_nil,
    resultOf, hasAllJoints_nil] <;> (try subst hr) <;> (try simp_all)
  cases hc3 : hasAllJoints (resultOf o2).jangles
  · rw [pick_place_crash3 o1 o2 o3 o4 o5 o6 ps pe g h q hc1 hc2 hc3] at hr ⊢
    simp_all [ikRetAt_append, ikRetAt_wblock, ikRetAt_single, ikRetAt_cons_gripperSet,
    ikRetAt_cons_gripperOpen, ikRetAt_cons_sleep, ikRetAt_nil,
    ikCallAt_append, ikCallAt_wblock, ikCallAt_single, ikCallAt_cons_gripperSet,
    ikCallAt_cons_gripperOpen, ikCallAt_cons_sleep, ikCallAt_nil,
    armMoveAt_append, armMoveAt_wblock, armMoveAt_single, armMoveAt_cons_gripperSet,
    armMoveAt_cons_gripperOpen, armMoveAt_cons_sleep, armMoveAt_nil,
    resultOf, hasAllJoints_nil] <;> (try subst hr) <;> (try simp_all)
  cases hc4 : hasAllJoints (resultOf o3).jangles
  · rw [pick_place_crash4 o1 o2 o3 o4 o5 o6 ps pe g h q hc1 hc2 hc3 hc4] at hr ⊢
    simp_all [ikRetAt_append, ikRetAt_wblock, ikRetAt_single, ikRetAt_cons_gripperSet,
    ikRetAt_cons_gripperOpen, ikRetAt_cons_sleep, ikRetAt_nil,
    ikCallAt_append, ikCallAt_wblock, ikCallAt_single, ikCallAt_cons_gripperSet,
    ikCallAt_cons_gripperOpen, ikCallAt_cons_sleep, ikCallAt_nil,
    armMoveAt_append, armMoveAt_wblock, armMoveAt_single, armMoveAt_cons_gripperSet,
    armMoveAt_cons_gripperOpen, armMoveAt_cons_sleep, armMoveAt_nil,
    resultOf, hasAllJoints_nil] <;> (try subst hr) <;> (try simp_all)
  cases hc5 : hasAllJoints (resultOf o4).jangles
  · rw [pick_place_crash5 o1 o2 o3 o4 o5 o6 ps pe g h q hc1 hc2 hc3 hc4 hc5] at hr ⊢
    simp_all [ikRetAt_append, ikRetAt_wblock, ikRetAt_single, ikRetAt_cons_gripperSet,
    ikRetAt_cons_gripperOpen, ikRetAt_cons_sleep, ikRetAt_nil,
    ikCallAt_append, ikCallAt_wblock, ikCallAt_single, ikCallAt_cons_gripperSet,
    ikCallAt_cons_gripperOpen, ikCallAt_cons_sleep, ikCallAt_nil,
    armMoveAt_append, armMoveAt_wblock, armMoveAt_single, armMoveAt_cons_gripperSet,
    armMoveAt_cons_gripperOpen, armMoveAt_cons_sleep, armMoveAt_nil,
    resultOf, hasAllJoints_nil] <;> (try subst hr) <;> (try simp_all)
  cases hc6 : hasAllJoints (resultOf o5).jangles
  · rw [pick_place_crash6 o1 o2 o3 o4 o5 o6 ps pe g h q hc1 hc2 hc3 hc4 hc5 hc6] at hr ⊢
    simp_all [ikRetAt_append, ikRetAt_wblock, ikRetAt_single, ikRetAt_cons_gripperSet,
    ikRetAt_cons_gripperOpen, ikRetAt_cons_sleep, ikRetAt_nil,
    ikCallAt_append, ikCallAt_wblock, ikCallAt_single, ikCallAt_cons_gripperSet,
    ikCallAt_cons_gripperOpen, ikCallAt_cons_sleep, ikCallAt_nil,
    armMoveAt_append, armMoveAt_wblock, armMoveAt_single, armMoveAt_cons_gripperSet,
    armMoveAt_cons_gripperOpen, armMoveAt_cons_sleep, armMoveAt_nil,
    resultOf, hasAllJoints_nil] <;> (try subst hr) <;> (try simp_all)
  rw [pick_place_complete o1 o2 o3 o4 o5 o6 ps pe g h q hc1 hc2 hc3 hc4 hc5 hc6] at hr ⊢
  simp_all [ikRetAt_append, ikRetAt_wblock, ikRetAt_single, ikRetAt_cons_gripperSet,
    ikRetAt_cons_gripperOpen, ikRetAt_cons_sleep, ikRetAt_nil,
    ikCallAt_append, ikCallAt_wblock, ikCallAt_single, ikCallAt_cons_gripperSet,
    ikCallAt_cons_gripperOpen, ikCallAt_cons_sleep, ikCallAt_nil,
    armMoveAt_append, armMoveAt_wblock, armMoveAt_single, armMoveAt_cons_gripperSet,
    armMoveAt_cons_gripperOpen, armMoveAt_cons_sleep, armMoveAt_nil,
    resultOf, hasAllJoints_nil] <;> (try subst hr) <;> (try simp_all)
)

/-- Witness for `pick_place_skip_on_invalid_amended`: concrete run with an
invalid solve at waypoint 0. -/
theorem pick_place_skip_on_invalid_amended_witness :
    armMoveAt (pick_place oI oV oV oV oV oV poseInit1 poseFinal1 0.7 0.20
      q0).trace 0 = none ∧
    (0 + 1 < 6 → ∃ p', ikCallAt (pick_place oI oV oV oV oV oV poseInit1
      poseFinal1 0.7 0.20 q0).trace (0 + 1) = some (p', ([] : JointConfig))) :=
  pick_place_skip_on_invalid_amended oI oV oV oV oV oV poseInit1 poseFinal1
    0.7 0.20 q0 0 (by omega) { jangles := [], valid := false } rfl rfl

/-- C2 counterexample: an invalid IK outcome at waypoint 0 (all later calls
well-behaved) makes `pick_place` terminate with an uncaught `KeyError`
raised by the waypoint-1 seed construction — refuting the claim that every
pattern of per-waypoint IK outcomes runs to completion. -/
theorem pick_place_crash_counterexample :
    (pick_place oI oV oV oV oV oV poseInit1 poseFinal1 0.7 0.20 q0).error =
      some PyError.keyError := rfl

/-- C2 (amended): with a complete initial seed and well-formed service
responses, `pick_place` runs to completion without an uncaught error
exactly when the solves for the first five waypoints are all valid; an
invalid solve at any of the first five waypoints terminates the run with a
`KeyError` at the next waypoint's seed construction. -/
theorem pick_place_completion_iff (o1 o2 o3 o4 o5 o6 : ServiceOutcome)
    (ps pe : Pose) (g h : ℚ) (q : JointConfig) (hq : hasAllJoints q = true)
    (w1 : outcomeWF o1 = true) (w2 : outcomeWF o2 = true)
    (w3 : outcomeWF o3 = true) (w4 : outcomeWF o4 = true)
    (w5 : outcomeWF o5 = true) :
    (pick_place o1 o2 o3 o4 o5 o6 ps pe g h q).error = none ↔
      (outcomeValid o1 = true ∧ outcomeValid o2 = true ∧
       outcomeValid o3 = true ∧ outcomeValid o4 = true ∧
       outcomeValid o5 = true) := by
  have e1 := hasAllJoints_resultOf o1 w1
  have e2 := hasAllJoints_resultOf o2 w2
  have e3 := hasAllJoints_resultOf o3 w3
  have e4 := hasAllJoints_resultOf o4 w4
  have e5 := hasAllJoints_resultOf o5 w5
  cases hc2 : hasAllJoints (resultOf o1).jangles
  · rw [pick_place_crash2 o1 o2 o3 o4 o5 o6 ps pe g h q hq hc2]
    simp_all
  cases hc3 : hasAllJoints (resultOf o2).jangles
  · rw [pick_place_crash3 o1 o2 o3 o4 o5 o6 ps pe g h q hq hc2 hc3]
    simp_all
  cases hc4 : hasAllJoints (resultOf o3).jangles
  · rw [pick_place_crash4 o1 o2 o3 o4 o5 o6 ps pe g h q hq hc2 hc3 hc4]
    simp_all
  cases hc5 : hasAllJoints (resultOf o4).jangles
  · rw [pick_place_crash5 o1 o2 o3 o4 o5 o6 ps pe g h q hq hc2 hc3 hc4 hc5]
    simp_all
  cases hc6 : hasAllJoints (resultOf o5).jangles
  · rw [pick_place_crash6 o1 o2 o3 o4 o5 o6 ps pe g h q hq hc2 hc3 hc4 hc5 hc6]
    simp_all
  rw [pick_place_complete o1 o2 o3 o4 o5 o6 ps pe g h q hq hc2 hc3 hc4 hc5 hc6]
  simp_all

/-- Witness for `pick_place_completion_iff`: the all-valid concrete run
completes without error. -/
theorem pick_place_completion_iff_witness :
    (pick_place oV oV oV oV oV oV poseInit1 poseFinal1 0.7 0.20 q0).error =
      none :=
  (pick_place_completion_iff oV oV oV oV oV oV poseInit1 poseFinal1 0.7 0.20
    q0 rfl rfl rfl rfl rfl rfl).mpr ⟨rfl, rfl, rfl, rfl, rfl⟩


/-- C5: for every pose and every complete seed, one `get_ik` call makes at
most one service invocation, every availability wait uses the fixed
5-time-unit timeout, the call returns a result (no exception), that result
is invalid exactly when the service was unavailable, the invocation
faulted, or the result code was ≤ 0, and a result code > 0 yields the
valid configuration pairing the returned joint names with the returned
positions. -/
theorem get_ik_single_attempt_contract (o : ServiceOutcome) (pose : Pose)
    (s : JointConfig) (hs : hasAllJoints s = true) :
    svcCallCount (get_ik o pose s).1 ≤ 1 ∧
    (∀ d, Event.waitService d ∈ (get_ik o pose s).1 → d = 5) ∧
    (∃ r, (get_ik o pose s).2 = Except.ok r ∧
      (r.valid = false ↔ (o = ServiceOutcome.unavailable ∨
        o = ServiceOutcome.commFault ∨
        ∃ rc names positions, o = ServiceOutcome.respond rc names positions ∧
          rc ≤ 0)) ∧
      (∀ rc names positions, o = ServiceOutcome.respond rc names positions →
        0 < rc → r = { jangles := dictZip names positions, valid := true })) := by
  refine ⟨?_, ?_, resultOf o, by simp [get_ik_eq, hs], ?_, ?_⟩
  · cases o <;> simp [get_ik_eq, hs, svcEventsOf, svcCallCount]
  · cases o <;> simp [get_ik_eq, hs, svcEventsOf]
  · cases o with
    | unavailable => simp [resultOf, outcomeValid]
    | commFault => simp [resultOf, outcomeValid]
    | respond rc names positions =>
        by_cases hrc : (0:ℤ) < rc <;>
          simp [resultOf, outcomeValid, hrc] <;> omega
  · intro rc names positions heq hrc
    subst heq
    simp [resultOf, outcomeValid, outcomeConfig, hrc]

/-- Witness for `get_ik_single_attempt_contract`: a concrete valid call. -/
theorem get_ik_single_attempt_contract_witness :
    svcCallCount (get_ik oV poseInit1 q0).1 ≤ 1 ∧
    ((get_ik oV poseInit1 q0).2 =
      Except.ok { jangles := dictZip jointNames [0, 0, 0, 0, 0, 0, 0],
                  valid := true }) :=
  ⟨(get_ik_single_attempt_contract oV poseInit1 q0 rfl).1, by
    obtain ⟨r, hr, -, hval⟩ :=
      (get_ik_single_attempt_contract oV poseInit1 q0 rfl).2.2
    rw [hr, hval 1 jointNames [0, 0, 0, 0, 0, 0, 0] rfl (by omega)]⟩


/-- C6: in every run of `pick_place`, among the actuator actions the
gripper close occurs strictly after the grasp-waypoint motion (when
issued) and strictly before the lift-waypoint motion (when issued), the
gripper open occurs strictly after the descend-to-place motion (when
issued) and strictly before the retreat motion (when issued), and every
gripper action is immediately followed by a settle pause of 1 time unit. -/
theorem pick_place_gripper_ordering (o1 o2 o3 o4 o5 o6 : ServiceOutcome) (ps pe : Pose)
    (g h : ℚ) (q : JointConfig) :
    (∀ p q', (actsOf (pick_place o1 o2 o3 o4 o5 o6 ps pe g h q).trace).findIdx? (isArmA 1) = some p →
      (actsOf (pick_place o1 o2 o3 o4 o5 o6 ps pe g h q).trace).findIdx? isCloseA = some q' → p < q') ∧
    (∀ p q', (actsOf (pick_place o1 o2 o3 o4 o5 o6 ps pe g h q).trace).findIdx? isCloseA = some p →
      (actsOf (pick_place o1 o2 o3 o4 o5 o6 ps pe g h q).trace).findIdx? (isArmA 2) = some q' → p < q') ∧
    (∀ p q', (actsOf (pick_place o1 o2 o3 o4 o5 o6 ps pe g h q).trace).findIdx? (isArmA 4) = some p →
      (actsOf (pick_place o1 o2 o3 o4 o5 o6 ps pe g h q).trace).findIdx? isReleaseA = some q' → p < q') ∧
    (∀ p q', (actsOf (pick_place o1 o2 o3 o4 o5 o6 ps pe g h q).trace).findIdx? isReleaseA = some p →
      (actsOf (pick_place o1 o2 o3 o4 o5 o6 ps pe g h q).trace).findIdx? (isArmA 5) = some q' → p < q') ∧
    settledA (actsOf (pick_place o1 o2 o3 o4 o5 o6 ps pe g h q).trace) = true := by
  cases hc1 : hasAllJoints q
  · rw [pick_place_crash1 o1 o2 o3 o4 o5 o6 ps pe g h q hc1]
    simp [actsOf_append, actsOf_wblock, actsOf_single, actsOf_cons_gripperSet,
      actsOf_cons_gripperOpen, actsOf_cons_sleep, actsOf_nil, isArmA, isCloseA,
      isReleaseA, settledA, List.findIdx?_cons] <;> (intros; subst_vars; try simp_all) <;> omega
  cases hc2 : hasAllJoints (resultOf o1).jangles
  · rw [pick_place_crash2 o1 o2 o3 o4 o5 o6 ps pe g h q hc1 hc2]
    cases hvx : outcomeValid o1 <;> simp_all [actsOf_append, actsOf_wblock, actsOf_single, actsOf_cons_gripperSet,
      actsOf_cons_gripperOpen, actsOf_cons_sleep, actsOf_nil, isArmA, isCloseA,
      isReleaseA, settledA, List.findIdx?_cons] <;> (intros; subst_vars; try simp_all) <;> omega
  have hv1 := outcomeValid_of_seedOk o1 hc2
  cases hc3 : hasAllJoints (resultOf o2).jangles
  · rw [pick_place_crash3 o1 o2 o3 o4 o5 o6 ps pe g h q hc1 hc2 hc3]
    cases hvx : outcomeValid o2 <;> simp_all [actsOf_append, actsOf_wblock, actsOf_single, actsOf_cons_gripperSet,
      actsOf_cons_gripperOpen, actsOf_cons_sleep, actsOf_nil, isArmA, isCloseA,
      isReleaseA, settledA, List.findIdx?_cons] <;> (intros; subst_vars; try simp_all) <;> omega
  have hv2 := outcomeValid_of_seedOk o2 hc3
  cases hc4 : hasAllJoints (resultOf o3).jangles
  · rw [pick_place_crash4 o1 o2 o3 o4 o5 o6 ps pe g h q hc1 hc2 hc3 hc4]
    cases hvx : outcomeValid o3 <;> simp_all [actsOf_append, actsOf_wblock, actsOf_single, actsOf_cons_gripperSet,
      actsOf_cons_gripperOpen, actsOf_cons_sleep, actsOf_nil, isArmA, isCloseA,
      isReleaseA, settledA, List.findIdx?_cons] <;> (intros; subst_vars; try simp_all) <;> omega
  have hv3 := outcomeValid_of_seedOk o3 hc4
  cases hc5 : hasAllJoints (resultOf o4).jangles
  · rw [pick_place_crash5 o1 o2 o3 o4 o5 o6 ps pe g h q hc1 hc2 hc3 hc4 hc5]
    cases hvx : outcomeValid o4 <;> simp_all [actsOf_append, actsOf_wblock, actsOf_single, actsOf_cons_gripperSet,
      actsOf_cons_gripperOpen, actsOf_cons_sleep, actsOf_nil, isArmA, isCloseA,
      isReleaseA, settledA, List.findIdx?_cons] <;> (intros; subst_vars; try simp_all) <;> omega
  have hv4 := outcomeValid_of_seedOk o4 hc5
  cases hc6 : hasAllJoints (resultOf o5).jangles
  · rw [pick_place_crash6 o1 o2 o3 o4 o5 o6 ps pe g h q hc1 hc2 hc3 hc4 hc5 hc6]
    cases hvx : outcomeValid o5 <;> simp_all [actsOf_append, actsOf_wblock, actsOf_single, actsOf_cons_gripperSet,
      actsOf_cons_gripperOpen, actsOf_cons_sleep, actsOf_nil, isArmA, isCloseA,
      isReleaseA, settledA, List.findIdx?_cons] <;> (intros; subst_vars; try simp_all) <;> omega
  have hv5 := outcomeValid_of_seedOk o5 hc6
  rw [pick_place_complete o1 o2 o3 o4 o5 o6 ps pe g h q hc1 hc2 hc3 hc4 hc5 hc6]
  cases hvx : outcomeValid o6 <;> simp_all [actsOf_append, actsOf_wblock, actsOf_single, actsOf_cons_gripperSet,
      actsOf_cons_gripperOpen, actsOf_cons_sleep, actsOf_nil, isArmA, isCloseA,
      isReleaseA, settledA, List.findIdx?_cons] <;> (intros; subst_vars; try simp_all) <;> omega

/-- Witness for `pick_place_gripper_ordering`: in the all-valid concrete
run the grasp motion (position 1) precedes the close (position 2), and
every gripper action is followed by a 1-unit pause. -/
theorem pick_place_gripper_ordering_witness :
    (1 : Nat) < 2 ∧
    settledA (actsOf (pick_place oV oV oV oV oV oV poseInit1 poseFinal1 0.7
      0.20 q0).trace) = true :=
  ⟨(pick_place_gripper_ordering oV oV oV oV oV oV poseInit1 poseFinal1 0.7
      0.20 q0).1 1 2 rfl rfl,
   (pick_place_gripper_ordering oV oV oV oV oV oV poseInit1 poseFinal1 0.7
      0.20 q0).2.2.2.2⟩

/-- C9 counterexample: with an invalid solve at waypoint 0, the run
terminates before either gripper action: no gripper action is issued at
all, refuting the claim that the close and open actions are issued exactly
once in every transfer execution. -/
theorem gripper_actions_missing_counterexample :
    gripsOf (pick_place oI oV oV oV oV oV poseInit1 poseFinal1 0.7 0.20
      q0).trace = [] := rfl

/-- C9 (amended): whenever the grasp-waypoint (resp. descend-to-place) IK
call returns at all — valid or invalid — the gripper close (resp. open)
action is issued; and a run that completes issues exactly the two gripper
actions, close then open.  An uncaught error at an earlier waypoint,
however, aborts the run before the action. -/
theorem pick_place_gripper_actions_amended (o1 o2 o3 o4 o5 o6 : ServiceOutcome) (ps pe : Pose)
    (g h : ℚ) (q : JointConfig) :
    (∀ r, ikRetAt (pick_place o1 o2 o3 o4 o5 o6 ps pe g h q).trace 1 = some r →
      Event.gripperSet g ∈ gripsOf (pick_place o1 o2 o3 o4 o5 o6 ps pe g h q).trace) ∧
    (∀ r, ikRetAt (pick_place o1 o2 o3 o4 o5 o6 ps pe g h q).trace 4 = some r →
      Event.gripperOpen ∈ gripsOf (pick_place o1 o2 o3 o4 o5 o6 ps pe g h q).trace) ∧
    ((pick_place o1 o2 o3 o4 o5 o6 ps pe g h q).error = none →
      gripsOf (pick_place o1 o2 o3 o4 o5 o6 ps pe g h q).trace = [Event.gripperSet g, Event.gripperOpen]) := by
  cases hc1 : hasAllJoints q
  · rw [pick_place_crash1 o1 o2 o3 o4 o5 o6 ps pe g h q hc1]
    simp_all [ikRetAt_append, ikRetAt_wblock, ikRetAt_single, ikRetAt_cons_gripperSet,
      ikRetAt_cons_gripperOpen, ikRetAt_cons_sleep, ikRetAt_nil,
      gripsOf_append, gripsOf_wblock, gripsOf_single, gripsOf_cons_gripperSet,
      gripsOf_cons_gripperOpen, gripsOf_cons_sleep, gripsOf_nil]
  cases hc2 : hasAllJoints (resultOf o1).jangles
  · rw [pick_place_crash2 o1 o2 o3 o4 o5 o6 ps pe g h q hc1 hc2]
    simp_all [ikRetAt_append, ikRetAt_wblock, ikRetAt_single, ikRetAt_cons_gripperSet,
      ikRetAt_cons_gripperOpen, ikRetAt_cons_sleep, ikRetAt_nil,
      gripsOf_append, gripsOf_wblock, gripsOf_single, gripsOf_cons_gripperSet,
      gripsOf_cons_gripperOpen, gripsOf_cons_sleep, gripsOf_nil]
  cases hc3 : hasAllJoints (resultOf o2).jangles
  · rw [pick_place_crash3 o1 o2 o3 o4 o5 o6 ps pe g h q hc1 hc2 hc3]
    simp_all [ikRetAt_append, ikRetAt_wblock, ikRetAt_single, ikRetAt_cons_gripperSet,
      ikRetAt_cons_gripperOpen, ikRetAt_cons_sleep, ikRetAt_nil,
      gripsOf_append, gripsOf_wblock, gripsOf_single, gripsOf_cons_gripperSet,
      gripsOf_cons_gripperOpen, gripsOf_cons_sleep, gripsOf_nil]
  cases hc4 : hasAllJoints (resultOf o3).jangles
  · rw [pick_place_crash4 o1 o2 o3 o4 o5 o6 ps pe g h q hc1 hc2 hc3 hc4]
    simp_all [ikRetAt_append, ikRetAt_wblock, ikRetAt_single, ikRetAt_cons_gripperSet,
      ikRetAt_cons_gripperOpen, ikRetAt_cons_sleep, ikRetAt_nil,
      gripsOf_append, gripsOf_wblock, gripsOf_single, gripsOf_cons_gripperSet,
      gripsOf_cons_gripperOpen, gripsOf_cons_sleep, gripsOf_nil]
  cases hc5 : hasAllJoints (resultOf o4).jangles
  · rw [pick_place_crash5 o1 o2 o3 o4 o5 o6 ps pe g h q hc1 hc2 hc3 hc4 hc5]
    simp_all [ikRetAt_append, ikRetAt_wblock, ikRetAt_single, ikRetAt_cons_gripperSet,
      ikRetAt_cons_gripperOpen, ikRetAt_cons_sleep, ikRetAt_nil,
      gripsOf_append, gripsOf_wblock, gripsOf_single, gripsOf_cons_gripperSet,
      gripsOf_cons_gripperOpen, gripsOf_cons_sleep, gripsOf_nil]
  cases hc6 : hasAllJoints (resultOf o5).jangles
  · rw [pick_place_crash6 o1 o2 o3 o4 o5 o6 ps pe g h q hc1 hc2 hc3 hc4 hc5 hc6]
    simp_all [ikRetAt_append, ikRetAt_wblock, ikRetAt_single, ikRetAt_cons_gripperSet,
      ikRetAt_cons_gripperOpen, ikRetAt_cons_sleep, ikRetAt_nil,
      gripsOf_append, gripsOf_wblock, gripsOf_single, gripsOf_cons_gripperSet,
      gripsOf_cons_gripperOpen, gripsOf_cons_sleep, gripsOf_nil]
  rw [pick_place_complete o1 o2 o3 o4 o5 o6 ps pe g h q hc1 hc2 hc3 hc4 hc5 hc6]
  simp_all [ikRetAt_append, ikRetAt_wblock, ikRetAt_single, ikRetAt_cons_gripperSet,
      ikRetAt_cons_gripperOpen, ikRetAt_cons_sleep, ikRetAt_nil,
      gripsOf_append, gripsOf_wblock, gripsOf_single, gripsOf_cons_gripperSet,
      gripsOf_cons_gripperOpen, gripsOf_cons_sleep, gripsOf_nil]

/-- Witness for `pick_place_gripper_actions_amended`: a run whose grasp
solve is invalid still issues the gripper close. -/
theorem pick_place_gripper_actions_amended_witness :
    Event.gripperSet 0.7 ∈ gripsOf (pick_place oV oI oV oV oV oV poseInit1
      poseFinal1 0.7 0.20 q0).trace :=
  (pick_place_gripper_actions_amended oV oI oV oV oV oV poseInit1 poseFinal1
    0.7 0.20 q0).1 { jangles := [], valid := false } rfl

/-- C7: for the concrete vaso-1 task (start `((0.6, 0.5, 0.03), q180)`,
end `((0.6, -0.5, 0.02), q180)`, clearance `0.20`, opening `0.7`), any run
whose IK solves are all valid (and well formed) targets, in order, the
waypoints with z = 0.23, 0.03, 0.23 at (0.6, 0.5) and z = 0.22, 0.02, 0.22
at (0.6, -0.5), and issues exactly 6 arm-motion commands and exactly 2
gripper actions — close to opening 0.7, then open — in that relative
order. -/
theorem pick_place_demo_scenario (o1 o2 o3 o4 o5 o6 : ServiceOutcome)
    (hv1 : outcomeValid o1 = true) (hv2 : outcomeValid o2 = true)
    (hv3 : outcomeValid o3 = true) (hv4 : outcomeValid o4 = true)
    (hv5 : outcomeValid o5 = true) (hv6 : outcomeValid o6 = true)
    (w1 : outcomeWF o1 = true) (w2 : outcomeWF o2 = true)
    (w3 : outcomeWF o3 = true) (w4 : outcomeWF o4 = true)
    (w5 : outcomeWF o5 = true) (q : JointConfig)
    (hq : hasAllJoints q = true) :
    (ikPosesOf (pick_place o1 o2 o3 o4 o5 o6 poseInit1 poseFinal1 0.7 0.20
        q).trace).map (fun p => (p.1.x, p.1.y, p.1.z)) =
      [(0.6, 0.5, 0.23), (0.6, 0.5, 0.03), (0.6, 0.5, 0.23),
       (0.6, -0.5, 0.22), (0.6, -0.5, 0.02), (0.6, -0.5, 0.22)] ∧
    cmdsOf (pick_place o1 o2 o3 o4 o5 o6 poseInit1 poseFinal1 0.7 0.20
        q).trace =
      [CmdK.arm 0, CmdK.arm 1, CmdK.close 0.7, CmdK.arm 2, CmdK.arm 3,
       CmdK.arm 4, CmdK.release, CmdK.arm 5] := by
  have e1 := (hasAllJoints_resultOf o1 w1).trans hv1
  have e2 := (hasAllJoints_resultOf o2 w2).trans hv2
  have e3 := (hasAllJoints_resultOf o3 w3).trans hv3
  have e4 := (hasAllJoints_resultOf o4 w4).trans hv4
  have e5 := (hasAllJoints_resultOf o5 w5).trans hv5
  rw [pick_place_complete o1 o2 o3 o4 o5 o6 poseInit1 poseFinal1 0.7 0.20 q
    hq e1 e2 e3 e4 e5]
  constructor
  · norm_num [ikPosesOf_append, ikPosesOf_wblock, ikPosesOf_cons_gripperSet,
      ikPosesOf_cons_gripperOpen, ikPosesOf_cons_sleep, ikPosesOf_nil, wpPose,
      poseInit1, poseFinal1]
  · simp [cmdsOf_append, cmdsOf_wblock, cmdsOf_cons_gripperSet,
      cmdsOf_cons_gripperOpen, cmdsOf_cons_sleep, cmdsOf_nil, hv1, hv2, hv3,
      hv4, hv5, hv6]

/-- Witness for `pick_place_demo_scenario`: the all-valid concrete run. -/
theorem pick_place_demo_scenario_witness :
    cmdsOf (pick_place oV oV oV oV oV oV poseInit1 poseFinal1 0.7 0.20
        q0).trace =
      [CmdK.arm 0, CmdK.arm 1, CmdK.close 0.7, CmdK.arm 2, CmdK.arm 3,
       CmdK.arm 4, CmdK.release, CmdK.arm 5] :=
  (pick_place_demo_scenario oV oV oV oV oV oV rfl rfl rfl rfl rfl rfl rfl rfl
    rfl rfl rfl q0 rfl).2


/-- C8: if gripper construction or calibration fails at startup, `main`
returns before any motion: the run issues no arm-motion command of any
kind (neutral or waypoint) and no gripper action. -/
theorem main_halts_on_gripper_failure (qneutral : JointConfig)
    (env : Nat → ServiceOutcome) :
    motionCount (mainRun GripperSetup.failure qneutral env).trace = 0 ∧
    gripsOf (mainRun GripperSetup.failure qneutral env).trace = [] :=
  ⟨rfl, rfl⟩


/-- C10: whenever `get_ik` returns an invalid result, the configuration it
carries is the empty mapping; and a `get_ik` call raises (`KeyError`)
exactly when some of the seven fixed joint names is absent from the seed
mapping it was given. -/
theorem get_ik_invalid_empty_config (o : ServiceOutcome) (pose : Pose)
    (s : JointConfig) :
    (∀ r, (get_ik o pose s).2 = Except.ok r → r.valid = false →
      r.jangles = []) ∧
    ((get_ik o pose s).2 = Except.error PyError.keyError ↔
      ∃ n ∈ jointNames, lookupJ s n = none) := by
  by_cases hs : hasAllJoints s
  · constructor
    · intro r hr hv
      rw [get_ik_eq] at hr
      simp [hs] at hr
      subst hr
      simp [resultOf] at hv ⊢
      simp [hv]
    · rw [get_ik_eq]
      simp [hs]
      intro n hn
      have := (List.all_eq_true.mp hs) n hn
      simp only [Option.isSome_iff_ne_none] at this
      exact this
  · constructor
    · intro r hr
      rw [get_ik_eq] at hr
      simp [hs] at hr
    · rw [get_ik_eq]
      simp [hs]
      simp [hasAllJoints] at hs
      obtain ⟨n, hn, hnone⟩ := hs
      exact ⟨n, hn, by simpa using hnone⟩

/-- Witness for `get_ik_invalid_empty_config`: the invalid concrete
response carries the empty configuration, and a call with an empty seed
raises. -/
theorem get_ik_invalid_empty_config_witness :
    ({ jangles := [], valid := false } : JointResult).jangles = [] ∧
    (get_ik oI poseInit1 []).2 = Except.error PyError.keyError :=
  ⟨(get_ik_invalid_empty_config oI poseInit1 q0).1
      { jangles := [], valid := false } rfl rfl,
   (get_ik_invalid_empty_config oI poseInit1 []).2.mpr
      ⟨"right_j0", by decide, rfl⟩⟩

